import Mathlib

/-!
Verification of the syn_ftp server (src/main.rs): a shallow embedding of
the command parser, the path sandbox resolver, the session state machine
and the listing formatter, together with theorems settling the spec claims.

Filesystem and network effects are abstracted: an `FS` record supplies the
results of `canonicalize`, `is_dir`, `read_dir` and `metadata`, and a
`NetEnv` record supplies the outcome of the PASV bind/accept.  A Rust
panic (`unwrap` / `expect` failure) is modelled as `none`.
-/

set_option maxRecDepth 4096

namespace SynFtp

/-! ## Paths

A `PathBuf` is modelled as an absolute/relative flag plus its list of
normal components (`".."` kept as a literal component, as Rust does). -/

structure RPath where
  absolute : Bool
  comps : List String
deriving DecidableEq, Repr

/-- Model of `Path::join`: an absolute right-hand side replaces the left. -/
def RPath.join (p q : RPath) : RPath :=
  if q.absolute then q else ⟨p.absolute, p.comps ++ q.comps⟩

/-- Model of `Path::has_root`. -/
def RPath.hasRoot (p : RPath) : Bool := p.absolute

/-- Model of `path.iter().skip(1).collect()` on an absolute path: the first
iterated component is the root, so the result is the relative path with
the same normal components. -/
def RPath.skipRoot (p : RPath) : RPath := ⟨false, p.comps⟩

/-- Model of `Path::starts_with`: component-wise prefix, root included. -/
def RPath.startsWith (p base : RPath) : Bool :=
  p.absolute == base.absolute && base.comps.isPrefixOf p.comps

/-- Model of `Path::strip_prefix` (as `Result` → `Option`): drops the base's
components, yielding a relative path. -/
def RPath.stripBase (p base : RPath) : Option RPath :=
  if p.startsWith base then some ⟨false, p.comps.drop base.comps.length⟩
  else none

/-- Model of `Path::parent`: `None` for `"/"` and for the empty relative path. -/
def RPath.parent (p : RPath) : Option RPath :=
  if p.comps = [] then none else some ⟨p.absolute, p.comps.dropLast⟩

/-- Model of `PathBuf::push` with a single normal component. -/
def RPath.push (p : RPath) (s : String) : RPath :=
  ⟨p.absolute, p.comps ++ [s]⟩

/-- Model of `Path::file_name`: the last component when it is a normal name. -/
def RPath.fileName (p : RPath) : Option String :=
  match p.comps.getLast? with
  | some s => if s = ".." then none else some s
  | none => none

/-- Model of `Path::to_str` rendering: components interspersed with `/`, with a
leading `/` when absolute (so the root renders as `"/"` and the empty
relative path as `""`). -/
def RPath.toStr (p : RPath) : String :=
  if p.absolute then "/" ++ String.intercalate "/" p.comps
  else String.intercalate "/" p.comps

/-- The root path `"/"`. -/
def RPath.rootPath : RPath := ⟨true, []⟩

/-! ## Filesystem and network abstraction -/

/-- Model of `io::ErrorKind` (the kinds this program distinguishes). -/
inductive IOErr where
  | notFound
  | permissionDenied
  | other (n : Nat)
deriving DecidableEq, Repr

/-- Metadata of one filesystem entry, as consumed by `add_file_info`
via `get_file_info` (modification time split into the `tm` fields the
formatter reads). -/
structure FileMeta where
  readonly : Bool
  size : Nat
  mon : Fin 12
  day : Nat
  hour : Nat
  min : Nat
deriving DecidableEq, Repr

/-- The filesystem, abstracted: each field gives the result of the
corresponding `std::fs` call.  `readDir` returns `none` when `read_dir`
itself fails (the code `unwrap`s that, i.e. panics) and models each
yielded `io::Result<DirEntry>` as an `Option RPath` (`none` = `Err`). -/
structure FS where
  canon : RPath → Except IOErr RPath
  isDir : RPath → Bool
  readDir : RPath → Option (List (Option RPath))
  metadata : RPath → Option FileMeta
  createDirOk : RPath → Bool
  removeDirOk : RPath → Bool

/-- Outcome of the PASV listener: whether `TcpListener::bind` succeeds,
and the first `incoming()` item (`some id` = an accepted stream,
`none` = an accept error). -/
structure NetEnv where
  bindOk : Bool
  acceptResult : Option Nat
deriving DecidableEq, Repr

/-! ## Result codes and commands -/

/-- The `ResultCode` enum from the source, with its numeric values in
`ResultCode.code`. -/
inductive ResultCode where
  | RestartMarkerReply
  | ServiceReadInXXXMinutes
  | DataConnectionAlreadyOpen
  | FileStatusOk
  | Ok
  | CommandNotImplementedSuperfluousAtThisSite
  | SystemStatus
  | DirectoryStatus
  | FileStatus
  | HelpMessage
  | SystemType
  | ServiceReadyForNewUser
  | ServiceClosingControlConnection
  | DataConnectionOpen
  | ClosingDataConnection
  | EnteringPassiveMode
  | UserLoggedIn
  | RequestedFileActionOkay
  | PATHNAMECreated
  | UserNameOkayNeedPassword
  | NeedAccountForLogin
  | RequestedFileActionPendingFurtherInformation
  | ServiceNotAvailable
  | CantOpenDataConnection
  | ConnectionClosed
  | FileBusy
  | LocalErrorInProcessing
  | InsufficientStorageSpace
  | UnknownCommand
  | InvalidParameterOrArgument
  | CommandNotImplemented
  | BadSequenceOfCommands
  | CommandNotImplementedForThatParameter
  | NotLoggedIn
  | NeedAccountForStoringFiles
  | FileNotFound
  | PageTypeUnknown
  | ExceededStorageAllocation
  | FileNameNotAllowed
deriving DecidableEq, Repr

def ResultCode.code : ResultCode → Nat
  | .RestartMarkerReply => 110
  | .ServiceReadInXXXMinutes => 120
  | .DataConnectionAlreadyOpen => 125
  | .FileStatusOk => 150
  | .Ok => 200
  | .CommandNotImplementedSuperfluousAtThisSite => 202
  | .SystemStatus => 211
  | .DirectoryStatus => 212
  | .FileStatus => 213
  | .HelpMessage => 214
  | .SystemType => 215
  | .ServiceReadyForNewUser => 220
  | .ServiceClosingControlConnection => 221
  | .DataConnectionOpen => 225
  | .ClosingDataConnection => 226
  | .EnteringPassiveMode => 227
  | .UserLoggedIn => 230
  | .RequestedFileActionOkay => 250
  | .PATHNAMECreated => 257
  | .UserNameOkayNeedPassword => 331
  | .NeedAccountForLogin => 332
  | .RequestedFileActionPendingFurtherInformation => 350
  | .ServiceNotAvailable => 421
  | .CantOpenDataConnection => 425
  | .ConnectionClosed => 426
  | .FileBusy => 450
  | .LocalErrorInProcessing => 451
  | .InsufficientStorageSpace => 452
  | .UnknownCommand => 500
  | .InvalidParameterOrArgument => 501
  | .CommandNotImplemented => 502
  | .BadSequenceOfCommands => 503
  | .CommandNotImplementedForThatParameter => 504
  | .NotLoggedIn => 530
  | .NeedAccountForStoringFiles => 532
  | .FileNotFound => 550
  | .PageTypeUnknown => 551
  | .ExceededStorageAllocation => 552
  | .FileNameNotAllowed => 553

/-- Wire encoding of one reply line, from `send_cmd`. -/
def send_cmd_line (code : ResultCode) (message : String) : String :=
  if message = "" then toString code.code ++ "\r\n"
  else toString code.code ++ " " ++ message ++ "\r\n"

/-- The `Command` enum as consumed by `handle_cmd` (`PathBuf` payloads
modelled as `RPath`). -/
inductive Command where
  | auth
  | syst
  | user (name : String)
  | noop
  | pwd
  | type
  | pasv
  | list (path : RPath)
  | cwd (path : RPath)
  | cdup
  | mkd (path : RPath)
  | rmd (path : RPath)
  | unknown (s : String)
deriving DecidableEq, Repr

/-! ## Session state -/

/-- The `Client` struct (the control `TcpStream` is plumbing and is not
modelled; the data channel is identified by an abstract stream id). -/
structure Client where
  cwd : RPath
  name : Option String
  dataWriter : Option Nat
deriving DecidableEq, Repr

/-- Model of `Client::new`. -/
def Client.init : Client := ⟨RPath.rootPath, none, none⟩

/-! ## Path sandbox resolver (`Client::complete_path`) -/

/-- The path joined onto the server root before canonicalization
(the first statement of `complete_path`). -/
def joinedPath (path server_root : RPath) : RPath :=
  server_root.join (if path.hasRoot then path.skipRoot else path)

/-- Model of `Client::complete_path`: join onto the server root, canonicalize,
and reject canonical results that do not start with the server root. -/
def complete_path (fs : FS) (path server_root : RPath) : Except IOErr RPath :=
  match fs.canon (joinedPath path server_root) with
  | .ok dir =>
      if ¬ dir.startsWith server_root then .error .permissionDenied
      else .ok dir
  | .error e => .error e

/-! ## Listing formatter (`add_file_info`) -/

/-- The `MONTHS` table (with the source's 4-letter `"Sept"`). -/
def MONTHS : List String :=
  ["Jan", "Feb", "Mar", "Apr", "May", "Jun", "Jul", "Aug", "Sept", "Oct",
   "Nov", "Dec"]

/-- Model of `str::split` on a one-character separator (empty pieces kept, the
empty string yielding one empty piece). -/
def splitChars (sep : Char) : List Char → List (List Char)
  | [] => [[]]
  | ch :: rest =>
      if ch = sep then [] :: splitChars sep rest
      else
        match splitChars sep rest with
        | t :: ts => (ch :: t) :: ts
        | [] => [[ch]]

/-- Model of `path.split("/").last()` from `add_file_info` (always `some`, since
a split yields at least one piece). -/
def lastSegment (s : String) : Option String :=
  ((splitChars '/' s.data).map String.mk).getLast?

/-- Model of `add_file_info`: append one listing line for `path` to `out`, or
leave `out` unchanged when `metadata` fails (the early `return`s). -/
def add_file_info (fs : FS) (path : RPath) (out : String) : String :=
  let extra := if fs.isDir path then "/" else ""
  let is_dir := if fs.isDir path then "d" else "-"
  match fs.metadata path with
  | none => out
  | some meta =>
    match lastSegment (RPath.toStr path) with
    | none => out
    | some name =>
      let rights := if meta.readonly then "r--r--r--" else "rw-rw-rw-"
      out ++ (is_dir ++ rights ++ " 1 anonymous anonymous "
        ++ toString meta.size ++ " " ++ MONTHS.getD meta.mon.val "" ++ " "
        ++ toString meta.day ++ " " ++ toString meta.hour ++ ":"
        ++ toString meta.min ++ " " ++ name ++ extra ++ "\r\n")

/-- The single listing line `add_file_info` produces for `path`
(empty when metadata is unavailable). -/
def infoLine (fs : FS) (path : RPath) : String := add_file_info fs path ""

/-! ## Session state machine (`Client::handle_cmd`) -/

/-- One reply on the control connection: result code and message. -/
abbrev Reply := ResultCode × String

/-- The observable outcome of handling one command: the new session
state, the control replies in order, each `send_data` payload in order,
and whether a PASV listener was opened. -/
structure StepOut where
  client : Client
  replies : List Reply
  dataOut : List String
  openedListener : Bool
deriving DecidableEq, Repr

/-- The `for entry in read_dir(path).unwrap()` loop of the LIST handler:
each iteration appends the entry's line to `out` (when the entry is
`Ok`) and then sends the whole accumulated `out`. -/
def listLoop (fs : FS) : List (Option RPath) → String → List String →
    String × List String
  | [], out, writes => (out, writes)
  | e :: es, out, writes =>
      let out' := match e with
        | some entry => add_file_info fs entry out
        | none => out
      listLoop fs es out' (writes ++ [out'])

/-- Model of `Client::cwd` (lines 183–207): resolve `cwd.join(directory)`, then
strip the server root; an empty remainder maps back to `"/"`. -/
def cwdHandler (fs : FS) (root : RPath) (c : Client) (directory : RPath) :
    Client × List Reply :=
  let path := c.cwd.join directory
  match complete_path fs path root with
  | .ok dir =>
    match dir.stripBase root with
    | some pre =>
        let c' := { c with
          cwd := if pre.toStr = "" then RPath.rootPath else pre }
        (c', [(.Ok, "Directory changed to \"" ++ directory.toStr ++ "\"")])
    | none => (c, [(.FileNotFound, "No such file or directory")])
  | .error _ => (c, [(.FileNotFound, "No such file or directory")])

/-- Model of `Client::mkd` (lines 209–226): resolve the parent, check it is a
directory, then `create_dir` on parent + leaf. -/
def mkdHandler (fs : FS) (root : RPath) (c : Client) (path : RPath) :
    Client × List Reply :=
  let path := c.cwd.join path
  let fail := (c, [(ResultCode.FileNotFound, "Cound't create folder")])
  match path.parent with
  | some parent =>
    match complete_path fs parent root with
    | .ok dir =>
      if fs.isDir dir then
        match path.fileName with
        | some filename =>
            if fs.createDirOk (dir.push filename) then
              (c, [(.PATHNAMECreated, "Folder successfully created!")])
            else fail
        | none => fail
      else fail
    | .error _ => fail
  | none => fail

/-- Model of `Client::rmd` (lines 228–237): note the source resolves the raw
client path (it does not join `cwd`). -/
def rmdHandler (fs : FS) (root : RPath) (c : Client) (path : RPath) :
    Client × List Reply :=
  match complete_path fs path root with
  | .ok p =>
      if fs.removeDirOk p then
        (c, [(.RequestedFileActionOkay, "Folder successfully removed!")])
      else (c, [(.FileNotFound, "Coundn't remove folder!")])
  | .error _ => (c, [(.FileNotFound, "Coundn't remove folder!")])

/-- The body of the LIST arm before the final cleanup (lines 323–356):
the session state, the replies sent so far and the `send_data` payloads.
`none` models the `read_dir(..).unwrap()` panic. -/
def listMain (fs : FS) (root : RPath) (c : Client) (path : RPath) :
    Option (Client × List Reply × List String) :=
  match c.dataWriter with
  | some _ =>
    match complete_path fs (c.cwd.join path) root with
    | .ok p =>
      let r1 : Reply :=
        (.DataConnectionAlreadyOpen, "Starting to list directory...")
      if fs.isDir p then
        match fs.readDir p with
        | none => none
        | some entries =>
            let res := listLoop fs entries "" []
            some (c, [r1], res.2)
      else
        -- the file branch formats a line into `out` but never sends it
        let _out := add_file_info fs p ""
        some (c, [r1], [])
    | .error _ =>
        some (c,
          [(.DataConnectionAlreadyOpen, "No such file or directory...")],
          [])
  | none =>
      some (c, [(.ConnectionClosed, "No opened data connection")], [])

/-- The LIST arm of `handle_cmd` (lines 317–366): the main body, then
the final unconditional clearing of the data channel (lines 358–365). -/
def listHandler (fs : FS) (root : RPath) (c : Client) (path : RPath) :
    Option StepOut :=
  match listMain fs root c path with
  | none => none
  | some res =>
    if res.1.dataWriter.isSome then
      some ⟨{ res.1 with dataWriter := none },
        res.2.1 ++ [(.ClosingDataConnection, "Transfer done")], res.2.2,
        false⟩
    else some ⟨res.1, res.2.1, res.2.2, false⟩

/-- The PASV reply payload: `format!("127,0,0,1, {}, {}", port >> 8,
port & 0xff)` with `port = 43210`. -/
def pasvPayload : String :=
  "127,0,0,1, " ++ toString ((43210 : Nat) >>> 8) ++ ", "
    ++ toString ((43210 : Nat) &&& 0xff)

/-- Model of `Client::handle_cmd` (lines 239–386).  `none` models a panic
(`bind(..).unwrap()` or `read_dir(..).unwrap()`). -/
def handle_cmd (fs : FS) (net : NetEnv) (root : RPath) (c : Client) :
    Command → Option StepOut
  | .auth => some ⟨c, [(.CommandNotImplemented, "Not implemented")], [], false⟩
  | .syst => some ⟨c, [(.Ok, "I won't tell")], [], false⟩
  | .user name =>
      if name = "" then
        some ⟨c, [(.InvalidParameterOrArgument, "Invalid username")], [], false⟩
      else
        some ⟨{ c with name := some name },
          [(.UserLoggedIn, "Welcome " ++ name ++ "!")], [], false⟩
  | .noop => some ⟨c, [(.Ok, "Doing nothing...")], [], false⟩
  | .pwd =>
      let msg := c.cwd.toStr
      if ¬ msg = "" then
        some ⟨c, [(.PATHNAMECreated, "\"" ++ msg ++ "\" ")], [], false⟩
      else
        some ⟨c, [(.FileNotFound, "No such file or directory")], [], false⟩
  | .type =>
      some ⟨c, [(.Ok, "Transfer type changed successfully")], [], false⟩
  | .pasv =>
      if c.dataWriter.isSome then
        some ⟨c, [(.DataConnectionAlreadyOpen, "Already listen...")], [], false⟩
      else
        let r1 : Reply := (.EnteringPassiveMode, pasvPayload)
        if net.bindOk then
          match net.acceptResult with
          | some id =>
              some ⟨{ c with dataWriter := some id }, [r1], [], true⟩
          | none =>
              some ⟨c, [r1, (.ServiceNotAvailable, "issues happen...")],
                [], true⟩
        else none
  | .list path => listHandler fs root c path
  | .cwd directory =>
      let res := cwdHandler fs root c directory
      some ⟨res.1, res.2, [], false⟩
  | .cdup =>
      let c' := match c.cwd.parent with
        | some p => { c with cwd := p }
        | none => c
      some ⟨c', [(.Ok, "Done")], [], false⟩
  | .mkd path =>
      let res := mkdHandler fs root c path
      some ⟨res.1, res.2, [], false⟩
  | .rmd path =>
      let res := rmdHandler fs root c path
      some ⟨res.1, res.2, [], false⟩
  | .unknown _ =>
      some ⟨c, [(.CommandNotImplemented, "Not implemented")], [], false⟩

/-! ## Command parser (`Command::new`, at the byte level)

`Command::new` consumes the raw line bytes; its `PathBuf`/`String`
payloads are kept here as the raw argument bytes, and the `expect` /
`unwrap` calls that panic on malformed UTF-8 or a missing argument are
modelled as `none`. -/

/-- ASCII bytes of a literal. -/
def bytes (s : String) : List Nat := s.data.map Char.toNat

/-- Model of `to_uppercase`: map bytes `a`–`z` to `A`–`Z`, leave the rest. -/
def toUppercase (l : List Nat) : List Nat :=
  l.map (fun b => if 97 ≤ b ∧ b ≤ 122 then b - 32 else b)

/-- Model of `slice::split` on the space byte: every separator splits, empty
pieces included, and the empty input yields one empty piece. -/
def splitB : List Nat → List (List Nat)
  | [] => [[]]
  | b :: rest =>
      if b = 32 then [] :: splitB rest
      else
        match splitB rest with
        | t :: ts => (b :: t) :: ts
        | [] => [[b]]

/-- A UTF-8 continuation byte. -/
def isCont (b : Nat) : Bool := 0x80 ≤ b && b ≤ 0xBF

/-- Validity of a byte sequence as UTF-8 (the check behind
`str::from_utf8` / `String::from_utf8`). -/
def validUtf8 : List Nat → Bool
  | [] => true
  | b :: rest =>
    if b ≤ 0x7F then validUtf8 rest
    else if 0xC2 ≤ b && b ≤ 0xDF then
      match rest with
      | c :: r => isCont c && validUtf8 r
      | [] => false
    else if b = 0xE0 then
      match rest with
      | c1 :: c2 :: r => (0xA0 ≤ c1 && c1 ≤ 0xBF) && isCont c2 && validUtf8 r
      | _ => false
    else if (0xE1 ≤ b && b ≤ 0xEC) || b = 0xEE || b = 0xEF then
      match rest with
      | c1 :: c2 :: r => isCont c1 && isCont c2 && validUtf8 r
      | _ => false
    else if b = 0xED then
      match rest with
      | c1 :: c2 :: r => (0x80 ≤ c1 && c1 ≤ 0x9F) && isCont c2 && validUtf8 r
      | _ => false
    else if b = 0xF0 then
      match rest with
      | c1 :: c2 :: c3 :: r =>
          (0x90 ≤ c1 && c1 ≤ 0xBF) && isCont c2 && isCont c3 && validUtf8 r
      | _ => false
    else if 0xF1 ≤ b && b ≤ 0xF3 then
      match rest with
      | c1 :: c2 :: c3 :: r =>
          isCont c1 && isCont c2 && isCont c3 && validUtf8 r
      | _ => false
    else if b = 0xF4 then
      match rest with
      | c1 :: c2 :: c3 :: r =>
          (0x80 ≤ c1 && c1 ≤ 0x8F) && isCont c2 && isCont c3 && validUtf8 r
      | _ => false
    else false

/-- The `Command` enum with its payloads as the raw argument bytes, as
built by `Command::new`. -/
inductive CommandB where
  | auth
  | syst
  | user (name : List Nat)
  | noop
  | pwd
  | type
  | pasv
  | list (path : List Nat)
  | cwd (path : List Nat)
  | cdup
  | mkd (path : List Nat)
  | rmd (path : List Nat)
  | unknown (s : List Nat)
deriving DecidableEq, Repr

/-- Model of `Command::new` (lines 95–132).  `none` models a panic: malformed
UTF-8 behind `expect`/`unwrap` on a recognized command's argument, or a
missing required argument for CWD/MKD/RMD.  Only the unknown-verb arm
degrades malformed UTF-8 to the empty string (`unwrap_or("")`). -/
def CommandB.new (input : List Nat) : Option CommandB :=
  let parts := splitB input
  let command := toUppercase (parts.headD [])
  let data := parts[1]?
  if command = bytes "AUTH" then some .auth
  else if command = bytes "SYST" then some .syst
  else if command = bytes "USER" then
    match data with
    | some bs => if validUtf8 bs then some (.user bs) else none
    | none => some (.user [])
  else if command = bytes "NOOP" then some .noop
  else if command = bytes "PWD" then some .pwd
  else if command = bytes "TYPE" then some .type
  else if command = bytes "PASV" then some .pasv
  else if command = bytes "LIST" then
    match data with
    | some bs => if validUtf8 bs then some (.list bs) else none
    | none => some (.list (bytes "."))
  else if command = bytes "CWD" then
    match data with
    | some bs => if validUtf8 bs then some (.cwd bs) else none
    | none => none
  else if command = bytes "CDUP" then some .cdup
  else if command = bytes "MKD" then
    match data with
    | some bs => if validUtf8 bs then some (.mkd bs) else none
    | none => none
  else if command = bytes "RMD" then
    match data with
    | some bs => if validUtf8 bs then some (.rmd bs) else none
    | none => none
  else some (.unknown (if validUtf8 command then command else []))

/-! ## Concrete fixtures

A small concrete filesystem used to witness the theorems: server root
`/srv` containing a directory `d` with three files, a plain file
`f.txt`, and a subdirectory `sub`; `/srv/../../../../etc`
canonicalizes to `/etc`, outside the root. -/

/-- Concatenation of a list of strings. -/
def concatStr : List String → String
  | [] => ""
  | s :: l => s ++ concatStr l

def exRoot : RPath := ⟨true, ["srv"]⟩

def exSubPath : RPath := ⟨true, ["srv", "sub"]⟩

def exDirPath : RPath := ⟨true, ["srv", "d"]⟩

def exFilePath : RPath := ⟨true, ["srv", "f.txt"]⟩

def exEntry1 : RPath := ⟨true, ["srv", "d", "a.txt"]⟩

def exEntry2 : RPath := ⟨true, ["srv", "d", "b.txt"]⟩

def exEntry3 : RPath := ⟨true, ["srv", "d", "c.txt"]⟩

def exEscapeArg : RPath := ⟨false, ["..", "..", "..", "..", "etc"]⟩

def exFS : FS where
  canon := fun p =>
    if p = exSubPath then .ok exSubPath
    else if p = ⟨true, ["srv", "..", "..", "..", "..", "etc"]⟩ then
      .ok ⟨true, ["etc"]⟩
    else if p = exDirPath then .ok exDirPath
    else if p = exFilePath then .ok exFilePath
    else .error .notFound
  isDir := fun p => p = exDirPath
  readDir := fun p =>
    if p = exDirPath then some [some exEntry1, some exEntry2, some exEntry3]
    else none
  metadata := fun p =>
    if p = exEntry1 then some ⟨false, 10, 0, 1, 2, 3⟩
    else if p = exEntry2 then some ⟨true, 20, 8, 4, 5, 6⟩
    else if p = exEntry3 then some ⟨false, 30, 11, 7, 8, 9⟩
    else if p = exFilePath then some ⟨false, 99, 1, 2, 3, 4⟩
    else none
  createDirOk := fun _ => false
  removeDirOk := fun _ => false

def exNet : NetEnv := ⟨true, some 7⟩

/-- A session whose data channel is open (stream id 3). -/
def exClientOpen : Client := ⟨RPath.rootPath, none, some 3⟩

/-! ## Helper lemmas -/

/-- Lemma: `add_file_info` only ever appends to its buffer: it equals the old
buffer followed by the (possibly empty) line it formats for the path. -/
theorem add_file_info_eq_append (fs : FS) (p : RPath) (out : String) :
    add_file_info fs p out = out ++ infoLine fs p := by
  unfold infoLine add_file_info
  cases hm : fs.metadata p with
  | none => simp [String.append_empty]
  | some meta =>
    cases hl : lastSegment (RPath.toStr p) with
    | none => simp [String.append_empty]
    | some name => simp [String.empty_append]

/-- The LIST directory loop sends, at each of the `n` iterations, the
whole accumulated buffer: the `j`-th write is the concatenation of the
lines of the first `j + 1` entries. -/
theorem listLoop_writes (fs : FS) (entries : List RPath) :
    ∀ (out : String) (ws : List String),
      (listLoop fs (entries.map some) out ws).2 =
        ws ++ (List.range entries.length).map
          (fun j => out ++ concatStr ((entries.map (infoLine fs)).take (j + 1))) := by
  induction entries with
  | nil => intro out ws; simp [listLoop]
  | cons e es ih =>
    intro out ws
    simp only [List.map_cons, listLoop, add_file_info_eq_append]
    rw [ih]
    simp [List.range_succ_eq_map, List.map_map, Function.comp, concatStr,
      String.append_assoc, String.append_empty]

/-- In a duplicate-free list, the `i`-th element lies in `take m`
exactly when `i < m`. -/
theorem nodup_mem_take_iff {α : Type} [DecidableEq α] (l : List α)
    (hnd : l.Nodup) (i m : Nat) (hi : i < l.length) :
    l[i] ∈ l.take m ↔ i < m := by
  constructor
  · intro h
    obtain ⟨k, hk, hkeq⟩ := List.getElem_of_mem h
    have hk2 : k < l.length := by
      simp only [List.length_take] at hk; omega
    have hkm : k < m := by
      simp only [List.length_take] at hk; omega
    have hget : l[k] = l[i] := by
      rw [← hkeq]; exact (List.getElem_take l).symm
    have := (@List.Nodup.getElem_inj_iff _ _ hnd k hk2 i hi).mp hget
    omega
  · intro h
    have hib : i < (l.take m).length := by
      simp only [List.length_take]; omega
    have : (l.take m)[i] = l[i] := List.getElem_take l
    rw [← this]
    exact List.getElem_mem hib

/-- Count of the `i`-th element of a duplicate-free list within a
prefix of that list. -/
theorem count_take_of_nodup {α : Type} [DecidableEq α] (l : List α)
    (hnd : l.Nodup) (i m : Nat) (hi : i < l.length) :
    (l.take m).count l[i] = if i < m then 1 else 0 := by
  rw [List.count_eq_of_nodup (List.Nodup.sublist (List.take_sublist m l) hnd)]
  simp [nodup_mem_take_iff l hnd i m hi]

theorem sum_range_ite (n i : Nat) :
    ((List.range n).map (fun j => if i < j + 1 then 1 else 0)).sum = n - i := by
  induction n with
  | zero => simp
  | succ n ih =>
    rw [List.range_succ, List.map_append, List.sum_append, ih]
    simp only [List.map_cons, List.map_nil, List.sum_cons, List.sum_nil]
    split <;> omega

/-- In the flattened sequence of growing prefixes `take 1, take 2, …,
take n` of a duplicate-free list, its `i`-th element occurs `n - i`
times (`0`-based: once per prefix long enough to contain it). -/
theorem count_flatten_takes {α : Type} [DecidableEq α] (l : List α)
    (hnd : l.Nodup) (i : Nat) (hi : i < l.length) :
    (((List.range l.length).map (fun j => l.take (j + 1))).flatten).count l[i]
      = l.length - i := by
  rw [List.count_flatten, List.map_map]
  have hfun : ((fun x => x.count l[i]) ∘ fun j => l.take (j + 1))
      = fun j => if i < j + 1 then 1 else 0 := by
    funext j
    simp only [Function.comp]
    exact count_take_of_nodup l hnd i (j + 1) hi
  rw [hfun, sum_range_ite]

/-! ## Claim theorems -/

/-- C1: whenever `complete_path` returns successfully, the returned
canonical path starts with the server root; a canonicalized path not
prefixed by the server root is rejected with `PermissionDenied`; a path
that fails to canonicalize is rejected with the canonicalization
error. -/
theorem complete_path_sandbox (fs : FS) (path root : RPath) :
    (∀ dir, complete_path fs path root = .ok dir →
      dir.startsWith root = true) ∧
    (∀ dir, fs.canon (joinedPath path root) = .ok dir →
      dir.startsWith root = false →
      complete_path fs path root = .error .permissionDenied) ∧
    (∀ e, fs.canon (joinedPath path root) = .error e →
      complete_path fs path root = .error e) := by
  refine ⟨?_, ?_, ?_⟩
  · intro d hd
    unfold complete_path at hd
    cases hc : fs.canon (joinedPath path root) with
    | ok dir =>
      rw [hc] at hd
      by_cases hsw : dir.startsWith root = true
      · simp [hsw] at hd
        rw [← hd]
        exact hsw
      · simp [hsw] at hd
    | error e =>
      rw [hc] at hd
      cases hd
  · intro d hd hsw
    unfold complete_path
    rw [hd]
    simp [hsw]
  · intro e he
    unfold complete_path
    rw [he]

/-- C1 witness: on the concrete filesystem, a resolvable path inside
the root starts with the root, the `/etc` escape is rejected with
`PermissionDenied`, and a missing path propagates `NotFound`. -/
theorem complete_path_sandbox_witness :
    RPath.startsWith exSubPath exRoot = true ∧
    complete_path exFS exEscapeArg exRoot = .error .permissionDenied ∧
    complete_path exFS ⟨false, ["zzz"]⟩ exRoot = .error .notFound := by
  refine ⟨?_, ?_, ?_⟩
  · exact (complete_path_sandbox exFS ⟨false, ["sub"]⟩ exRoot).1 exSubPath
      (by rfl)
  · exact (complete_path_sandbox exFS exEscapeArg exRoot).2.1
      ⟨true, ["etc"]⟩ (by rfl) (by decide)
  · exact (complete_path_sandbox exFS ⟨false, ["zzz"]⟩ exRoot).2.2
      .notFound (by rfl)

/-- C5: a PASV while the data channel is already open replies
`DataConnectionAlreadyOpen`, opens no listener, and leaves the session
state (hence the existing channel) unchanged. -/
theorem pasv_already_open (fs : FS) (net : NetEnv) (root : RPath)
    (c : Client) (ch : Nat) (h : c.dataWriter = some ch) :
    handle_cmd fs net root c .pasv =
      some ⟨c, [(.DataConnectionAlreadyOpen, "Already listen...")], [],
        false⟩ := by
  simp [handle_cmd, h]

/-- C5 witness: a client with an open channel (id 3). -/
theorem pasv_already_open_witness :
    handle_cmd exFS exNet exRoot exClientOpen .pasv =
      some ⟨exClientOpen,
        [(.DataConnectionAlreadyOpen, "Already listen...")], [], false⟩ :=
  pasv_already_open exFS exNet exRoot exClientOpen 3 rfl

/-- C9 counterexample: when binding the PASV listener fails, the
session does not reply `ServiceNotAvailable` and continue — it panics
(`bind(..).unwrap()`), terminating the session thread. -/
theorem pasv_bind_failure_panics :
    handle_cmd exFS ⟨false, none⟩ exRoot Client.init .pasv = none := by
  decide

/-- C9 amended: it is a failure of *accepting* on the PASV listener
that yields `ServiceNotAvailable` with the session state unchanged
(the session continues); a failure of *binding* panics the session. -/
theorem pasv_accept_failure_continues (fs : FS) (root : RPath)
    (c : Client) (net : NetEnv) (h : c.dataWriter = none)
    (hb : net.bindOk = true) (ha : net.acceptResult = none) :
    handle_cmd fs net root c .pasv =
      some ⟨c, [(.EnteringPassiveMode, pasvPayload),
        (.ServiceNotAvailable, "issues happen...")], [], true⟩ := by
  simp [handle_cmd, h, hb, ha]

/-- C9 amended witness: accept failure on a fresh session. -/
theorem pasv_accept_failure_continues_witness :
    handle_cmd exFS ⟨true, none⟩ exRoot Client.init .pasv =
      some ⟨Client.init, [(.EnteringPassiveMode, pasvPayload),
        (.ServiceNotAvailable, "issues happen...")], [], true⟩ :=
  pasv_accept_failure_continues exFS exRoot Client.init ⟨true, none⟩
    rfl rfl rfl

/-- C6: a CWD whose resolution fails — in particular a sandbox
violation, where `complete_path` fails with `PermissionDenied` — is
answered with `FileNotFound` (the `PermissionDenied` is never exposed),
and every CWD that replies `FileNotFound` leaves `currentDirectory`
(indeed the whole session state) at its prior value. -/
theorem cwd_failure_preserves_cwd (fs : FS) (net : NetEnv) (root : RPath)
    (c : Client) (d : RPath) :
    (∀ e, complete_path fs (c.cwd.join d) root = .error e →
      handle_cmd fs net root c (.cwd d) =
        some ⟨c, [(.FileNotFound, "No such file or directory")], [],
          false⟩) ∧
    (∀ r, handle_cmd fs net root c (.cwd d) = some r →
      (ResultCode.FileNotFound, "No such file or directory") ∈ r.replies →
      r.client = c) := by
  constructor
  · intro e he
    simp only [handle_cmd, cwdHandler, he]
  · intro r hr hmem
    cases hc : complete_path fs (c.cwd.join d) root with
    | ok dir =>
      cases hs : dir.stripBase root with
      | some pre =>
        simp only [handle_cmd, cwdHandler, hc, hs] at hr
        cases hr
        simp at hmem
      | none =>
        simp only [handle_cmd, cwdHandler, hc, hs] at hr
        cases hr
        rfl
    | error e =>
      simp only [handle_cmd, cwdHandler, hc] at hr
      cases hr
      rfl

/-- C6 witness: `CWD ../../../../etc` from the root of the concrete
filesystem resolves to `/etc`, outside the server root; the reply is
`FileNotFound` and the session state is unchanged. -/
theorem cwd_failure_preserves_cwd_witness :
    handle_cmd exFS exNet exRoot Client.init (.cwd exEscapeArg) =
      some ⟨Client.init, [(.FileNotFound, "No such file or directory")],
        [], false⟩ ∧
    Client.init = Client.init := by
  refine ⟨(cwd_failure_preserves_cwd exFS exNet exRoot Client.init
    exEscapeArg).1 .permissionDenied (by rfl), ?_⟩
  exact (cwd_failure_preserves_cwd exFS exNet exRoot Client.init
    exEscapeArg).2
    ⟨Client.init, [(.FileNotFound, "No such file or directory")], [], false⟩
    ((cwd_failure_preserves_cwd exFS exNet exRoot Client.init
      exEscapeArg).1 .permissionDenied (by rfl))
    (by simp)

/-- C3 counterexample: starting from `currentDirectory = "/"`, a
successful `CWD sub` sets `currentDirectory` to the relative path
`"sub"`, not `"/sub"`: the root-relative-with-leading-`/` invariant is
broken by the very first successful CWD. -/
theorem cwd_sub_counterexample :
    (handle_cmd exFS exNet exRoot Client.init
        (.cwd ⟨false, ["sub"]⟩)).map (fun r => r.client.cwd) =
      some ⟨false, ["sub"]⟩ ∧
    RPath.toStr ⟨false, ["sub"]⟩ = "sub" ∧
    ¬ ("sub" = "/sub") := by
  refine ⟨by rfl, by rfl, by decide⟩

/-- C3 amended: from `currentDirectory = "/"`, a successful `CWD sub`
sets `currentDirectory` to the root-relative form *without* a leading
slash, `"sub"`; a subsequent `CDUP` then sets it to the empty path
`""`, not `"/"`.  (The leading-`/` form is restored only when the
resolved target is the root itself.) -/
theorem cwd_sub_then_cdup (fs : FS) (net : NetEnv) (root : RPath)
    (c : Client) (s : String)
    (hroot : root.absolute = true)
    (hcwd : c.cwd = RPath.rootPath)
    (hcanon : fs.canon ⟨true, root.comps ++ [s]⟩ =
      .ok ⟨true, root.comps ++ [s]⟩)
    (hs : ¬ RPath.toStr ⟨false, [s]⟩ = "") :
    handle_cmd fs net root c (.cwd ⟨false, [s]⟩) =
      some ⟨{ c with cwd := ⟨false, [s]⟩ },
        [(.Ok, "Directory changed to \"" ++ RPath.toStr ⟨false, [s]⟩
          ++ "\"")], [], false⟩ ∧
    handle_cmd fs net root { c with cwd := ⟨false, [s]⟩ } .cdup =
      some ⟨{ c with cwd := ⟨false, ([] : List String)⟩ },
        [(.Ok, "Done")], [], false⟩ := by
  have hjoin : joinedPath (c.cwd.join ⟨false, [s]⟩) root =
      ⟨true, root.comps ++ [s]⟩ := by
    cases root with
    | mk ra rc =>
      simp at hroot
      subst hroot
      simp [hcwd, joinedPath, RPath.join, RPath.hasRoot, RPath.skipRoot,
        RPath.rootPath]
  constructor
  · simp only [handle_cmd, cwdHandler, complete_path, hjoin, hcanon]
    have hsw : RPath.startsWith ⟨true, root.comps ++ [s]⟩ root = true := by
      cases root with
      | mk ra rc =>
        simp at hroot
        subst hroot
        simp [RPath.startsWith, List.isPrefixOf_iff_prefix]
    have hstrip : RPath.stripBase ⟨true, root.comps ++ [s]⟩ root =
        some ⟨false, [s]⟩ := by
      simp [RPath.stripBase, hsw, List.drop_left]
    simp [hsw, hstrip, hs]
  · simp [handle_cmd, RPath.parent]

/-- C3 amended witness: the concrete `/srv` filesystem with `sub`. -/
theorem cwd_sub_then_cdup_witness :
    handle_cmd exFS exNet exRoot Client.init (.cwd ⟨false, ["sub"]⟩) =
      some ⟨{ Client.init with cwd := ⟨false, ["sub"]⟩ },
        [(.Ok, "Directory changed to \"" ++ RPath.toStr ⟨false, ["sub"]⟩
          ++ "\"")], [], false⟩ ∧
    handle_cmd exFS exNet exRoot
        { Client.init with cwd := ⟨false, ["sub"]⟩ } .cdup =
      some ⟨{ Client.init with cwd := ⟨false, ([] : List String)⟩ },
        [(.Ok, "Done")], [], false⟩ :=
  cwd_sub_then_cdup exFS exNet exRoot Client.init "sub" rfl rfl
    (by rfl) (by decide)

/-- Helper: whatever `listMain` produced (success, resolver failure, or
no data channel), its session state is the unchanged `c`. -/
theorem listMain_client (fs : FS) (root : RPath) (c : Client)
    (path : RPath) (res : Client × List Reply × List String)
    (h : listMain fs root c path = some res) : res.1 = c := by
  unfold listMain at h
  split at h
  · split at h
    · split at h
      · split at h
        · cases h
        · cases h
          rfl
      · cases h
        rfl
    · cases h
      rfl
  · cases h
    rfl

/-- C4: after handling any LIST — transfer done, resolver failure, or
no channel at all — the session's data channel is `none`, and a
subsequent PASV (with a working bind/accept) is accepted, opening a
fresh channel rather than replying `DataConnectionAlreadyOpen`. -/
theorem list_clears_data_channel (fs : FS) (net : NetEnv) (root : RPath)
    (c : Client) (path : RPath) (r : StepOut)
    (h : handle_cmd fs net root c (.list path) = some r) :
    r.client.dataWriter = none ∧
    ∀ id : Nat, handle_cmd fs ⟨true, some id⟩ root r.client .pasv =
      some ⟨{ r.client with dataWriter := some id },
        [(.EnteringPassiveMode, pasvPayload)], [], true⟩ := by
  have hdw : r.client.dataWriter = none := by
    simp only [handle_cmd, listHandler] at h
    split at h
    · cases h
    · rename_i res heq
      split at h
      · cases h
        rfl
      · rename_i hds
        cases h
        simpa using hds
  refine ⟨hdw, fun id => ?_⟩
  simp [handle_cmd, hdw]

/-- C4 witness: a LIST with no channel open, followed by an accepted
PASV. -/
theorem list_clears_data_channel_witness :
    (⟨Client.init, [(.ConnectionClosed, "No opened data connection")],
        [], false⟩ : StepOut).client.dataWriter = none ∧
    ∀ id : Nat, handle_cmd exFS ⟨true, some id⟩ exRoot
        (⟨Client.init, [(.ConnectionClosed, "No opened data connection")],
          [], false⟩ : StepOut).client .pasv =
      some ⟨{ (⟨Client.init,
          [(.ConnectionClosed, "No opened data connection")], [],
          false⟩ : StepOut).client with dataWriter := some id },
        [(.EnteringPassiveMode, pasvPayload)], [], true⟩ :=
  list_clears_data_channel exFS exNet exRoot Client.init ⟨false, ["d"]⟩
    ⟨Client.init, [(.ConnectionClosed, "No opened data connection")], [],
      false⟩ (by rfl)

/-- C7 counterexample: a LIST whose path fails to resolve, with the
data channel open, does *not* reply `FileNotFound`: it replies
`DataConnectionAlreadyOpen` (code 125, the transfer-starting family)
with a not-found message, then `ClosingDataConnection`. -/
theorem list_resolve_failure_counterexample :
    handle_cmd exFS exNet exRoot exClientOpen (.list ⟨false, ["zzz"]⟩) =
      some ⟨{ exClientOpen with dataWriter := none },
        [(.DataConnectionAlreadyOpen, "No such file or directory..."),
         (.ClosingDataConnection, "Transfer done")], [], false⟩ ∧
    (∀ rp ∈ [((ResultCode.DataConnectionAlreadyOpen : ResultCode),
        "No such file or directory..."),
       (ResultCode.ClosingDataConnection, "Transfer done")],
      ¬ rp.1 = ResultCode.FileNotFound) ∧
    ResultCode.code .DataConnectionAlreadyOpen = 125 := by
  refine ⟨by rfl, by decide, by rfl⟩

/-- C7 amended: a LIST with no data channel open replies
`ConnectionClosed`; a LIST with a channel open whose path fails to
resolve replies `DataConnectionAlreadyOpen` with a not-found message
(followed by `ClosingDataConnection`), not `FileNotFound`. -/
theorem list_failure_replies (fs : FS) (net : NetEnv) (root : RPath)
    (c : Client) (path : RPath) :
    (c.dataWriter = none → handle_cmd fs net root c (.list path) =
      some ⟨c, [(.ConnectionClosed, "No opened data connection")], [],
        false⟩) ∧
    (∀ w e, c.dataWriter = some w →
      complete_path fs (c.cwd.join path) root = .error e →
      handle_cmd fs net root c (.list path) =
        some ⟨{ c with dataWriter := none },
          [(.DataConnectionAlreadyOpen, "No such file or directory..."),
           (.ClosingDataConnection, "Transfer done")], [], false⟩) := by
  constructor
  · intro h
    simp [handle_cmd, listHandler, listMain, h]
  · intro w e hw he
    simp [handle_cmd, listHandler, listMain, hw, he]

/-- C7 amended witness: both failure shapes on the concrete
filesystem. -/
theorem list_failure_replies_witness :
    handle_cmd exFS exNet exRoot Client.init (.list ⟨false, ["zzz"]⟩) =
      some ⟨Client.init,
        [(.ConnectionClosed, "No opened data connection")], [], false⟩ ∧
    handle_cmd exFS exNet exRoot exClientOpen (.list ⟨false, ["zzz"]⟩) =
      some ⟨{ exClientOpen with dataWriter := none },
        [(.DataConnectionAlreadyOpen, "No such file or directory..."),
         (.ClosingDataConnection, "Transfer done")], [], false⟩ :=
  ⟨(list_failure_replies exFS exNet exRoot Client.init
      ⟨false, ["zzz"]⟩).1 rfl,
   (list_failure_replies exFS exNet exRoot exClientOpen
      ⟨false, ["zzz"]⟩).2 3 .notFound rfl (by rfl)⟩

/-- C8 (code bug): a LIST whose resolved target is a regular file, with
the data channel open, formats the file's listing line into the local
buffer but never writes it to the data channel — zero `send_data` calls
occur, although the non-empty line was computed; the channel is still
closed afterwards. -/
theorem list_file_sends_nothing :
    handle_cmd exFS exNet exRoot exClientOpen (.list ⟨false, ["f.txt"]⟩) =
      some ⟨{ exClientOpen with dataWriter := none },
        [(.DataConnectionAlreadyOpen, "Starting to list directory..."),
         (.ClosingDataConnection, "Transfer done")], [], false⟩ ∧
    ¬ infoLine exFS exFilePath = "" := by
  refine ⟨by rfl, by decide⟩

/-- C10: LIST on a directory of `n` entries writes the accumulated
buffer once per entry without clearing it: the `j`-th write is the
concatenation of the first `j + 1` lines, and (for pairwise-distinct
lines) the `i`-th entry's line occurs `n - i` times (`0`-based; i.e.
`n − i + 1` times for the `1`-based `i`) in the transferred data
instead of exactly once. -/
theorem list_directory_duplicates_lines (fs : FS) (net : NetEnv)
    (root : RPath) (c : Client) (path p : RPath) (w : Nat)
    (entries : List RPath)
    (hw : c.dataWriter = some w)
    (hres : complete_path fs (c.cwd.join path) root = .ok p)
    (hdir : fs.isDir p = true)
    (hrd : fs.readDir p = some (entries.map some)) :
    handle_cmd fs net root c (.list path) =
      some ⟨{ c with dataWriter := none },
        [(.DataConnectionAlreadyOpen, "Starting to list directory..."),
         (.ClosingDataConnection, "Transfer done")],
        (List.range entries.length).map
          (fun j => concatStr ((entries.map (infoLine fs)).take (j + 1))),
        false⟩ ∧
    ∀ i, ∀ hi : i < (entries.map (infoLine fs)).length,
      (entries.map (infoLine fs)).Nodup →
      (((List.range (entries.map (infoLine fs)).length).map
          (fun j => (entries.map (infoLine fs)).take (j + 1))).flatten).count
          ((entries.map (infoLine fs)).get ⟨i, hi⟩)
        = (entries.map (infoLine fs)).length - i := by
  constructor
  · simp only [handle_cmd, listHandler, listMain, hw, hres, hdir, hrd,
      if_true, listLoop_writes]
    simp [String.empty_append, hw]
  · intro i hi hnd
    have hcount := count_flatten_takes (entries.map (infoLine fs)) hnd i
      (by simpa using hi)
    simpa [List.get_eq_getElem] using hcount

/-- C10 witness: the concrete directory `d` with three entries; the
first entry's line is transferred 3 times. -/
theorem list_directory_duplicates_lines_witness :
    handle_cmd exFS exNet exRoot exClientOpen (.list ⟨false, ["d"]⟩) =
      some ⟨{ exClientOpen with dataWriter := none },
        [(.DataConnectionAlreadyOpen, "Starting to list directory..."),
         (.ClosingDataConnection, "Transfer done")],
        (List.range ([exEntry1, exEntry2, exEntry3] : List RPath).length).map
          (fun j => concatStr
            (([exEntry1, exEntry2, exEntry3].map (infoLine exFS)).take
              (j + 1))),
        false⟩ ∧
    (((List.range
          ([exEntry1, exEntry2, exEntry3].map (infoLine exFS)).length).map
        (fun j =>
          ([exEntry1, exEntry2, exEntry3].map (infoLine exFS)).take
            (j + 1))).flatten).count
        (([exEntry1, exEntry2, exEntry3].map (infoLine exFS)).get
          ⟨0, by decide⟩) = 3 := by
  have h := list_directory_duplicates_lines exFS exNet exRoot exClientOpen
    ⟨false, ["d"]⟩ exDirPath 3 [exEntry1, exEntry2, exEntry3]
    rfl (by rfl) (by rfl) (by rfl)
  refine ⟨h.1, ?_⟩
  have h2 := h.2 0 (by decide) (by decide)
  simpa using h2

/-- C2 counterexample: the parser is not total — `USER` followed by the
non-UTF-8 byte `0xFF` panics (`String::from_utf8(..).expect(..)`)
instead of degrading the argument to an empty string. -/
theorem command_new_panics_on_invalid_utf8 :
    CommandB.new [85, 83, 69, 82, 32, 255] = none ∧
    [85, 83, 69, 82, 32, 255] = bytes "USER " ++ [255] := by
  refine ⟨by rfl, by decide⟩

/-- C2 amended: parsing produces some `Command` for every single-line
input *provided* the argument token (when present) is valid UTF-8 and
CWD/MKD/RMD come with an argument; malformed UTF-8 degrades to an empty
string only in the unknown-verb arm, while in a recognized command's
argument it panics, as does a missing CWD/MKD/RMD argument. -/
theorem command_new_total (input : List Nat)
    (hArg : Option.all validUtf8 (splitB input)[1]? = true)
    (hReq : (toUppercase ((splitB input).headD []) = bytes "CWD" ∨
        toUppercase ((splitB input).headD []) = bytes "MKD" ∨
        toUppercase ((splitB input).headD []) = bytes "RMD") →
      ((splitB input)[1]?).isSome = true) :
    (CommandB.new input).isSome = true := by
  simp only [CommandB.new]
  set cmd := toUppercase ((splitB input).headD []) with hcmd
  cases hd : (splitB input)[1]? with
  | none =>
    rw [hd] at hReq
    by_cases h1 : cmd = bytes "AUTH"
    case pos => rw [if_pos h1]; rfl
    rw [if_neg h1]
    by_cases h2 : cmd = bytes "SYST"
    case pos => rw [if_pos h2]; rfl
    rw [if_neg h2]
    by_cases h3 : cmd = bytes "USER"
    case pos => rw [if_pos h3]; rfl
    rw [if_neg h3]
    by_cases h4 : cmd = bytes "NOOP"
    case pos => rw [if_pos h4]; rfl
    rw [if_neg h4]
    by_cases h5 : cmd = bytes "PWD"
    case pos => rw [if_pos h5]; rfl
    rw [if_neg h5]
    by_cases h6 : cmd = bytes "TYPE"
    case pos => rw [if_pos h6]; rfl
    rw [if_neg h6]
    by_cases h7 : cmd = bytes "PASV"
    case pos => rw [if_pos h7]; rfl
    rw [if_neg h7]
    by_cases h8 : cmd = bytes "LIST"
    case pos => rw [if_pos h8]; rfl
    rw [if_neg h8]
    by_cases h9 : cmd = bytes "CWD"
    case pos => exact absurd (hReq (Or.inl h9)) (by simp)
    rw [if_neg h9]
    by_cases h10 : cmd = bytes "CDUP"
    case pos => rw [if_pos h10]; rfl
    rw [if_neg h10]
    by_cases h11 : cmd = bytes "MKD"
    case pos => exact absurd (hReq (Or.inr (Or.inl h11))) (by simp)
    rw [if_neg h11]
    by_cases h12 : cmd = bytes "RMD"
    case pos => exact absurd (hReq (Or.inr (Or.inr h12))) (by simp)
    rw [if_neg h12]
    rfl
  | some d =>
    rw [hd] at hArg
    simp only [Option.all] at hArg
    by_cases h1 : cmd = bytes "AUTH"
    case pos => rw [if_pos h1]; rfl
    rw [if_neg h1]
    by_cases h2 : cmd = bytes "SYST"
    case pos => rw [if_pos h2]; rfl
    rw [if_neg h2]
    by_cases h3 : cmd = bytes "USER"
    case pos => rw [if_pos h3]; dsimp only; rw [if_pos hArg]; rfl
    rw [if_neg h3]
    by_cases h4 : cmd = bytes "NOOP"
    case pos => rw [if_pos h4]; rfl
    rw [if_neg h4]
    by_cases h5 : cmd = bytes "PWD"
    case pos => rw [if_pos h5]; rfl
    rw [if_neg h5]
    by_cases h6 : cmd = bytes "TYPE"
    case pos => rw [if_pos h6]; rfl
    rw [if_neg h6]
    by_cases h7 : cmd = bytes "PASV"
    case pos => rw [if_pos h7]; rfl
    rw [if_neg h7]
    by_cases h8 : cmd = bytes "LIST"
    case pos => rw [if_pos h8]; dsimp only; rw [if_pos hArg]; rfl
    rw [if_neg h8]
    by_cases h9 : cmd = bytes "CWD"
    case pos => rw [if_pos h9]; dsimp only; rw [if_pos hArg]; rfl
    rw [if_neg h9]
    by_cases h10 : cmd = bytes "CDUP"
    case pos => rw [if_pos h10]; rfl
    rw [if_neg h10]
    by_cases h11 : cmd = bytes "MKD"
    case pos => rw [if_pos h11]; dsimp only; rw [if_pos hArg]; rfl
    rw [if_neg h11]
    by_cases h12 : cmd = bytes "RMD"
    case pos => rw [if_pos h12]; dsimp only; rw [if_pos hArg]; rfl
    rw [if_neg h12]
    rfl

/-- C2 amended witness: `USER bob` parses. -/
theorem command_new_total_witness :
    (CommandB.new (bytes "USER bob")).isSome = true :=
  command_new_total (bytes "USER bob") (by rfl) (fun _ => by rfl)

end SynFtp
